import Mathlib

/-!
Verification of the SAPLScraper gazette pipeline (`SAPLscraper.py`) against its
specification.  The Python source is shallowly embedded: pure string handling
becomes functions on `List Char` / `String`, JSON values become the `Json`
inductive, the filesystem and HTTP layer are passed explicitly, and Python
exceptions that the source does not catch surface as `Except.error` with the
Python exception class name.  Python `int` is modelled by `Int` (arbitrary
precision, as in Python).  Non-ASCII decimal digits accepted by Python's
`int()` / `re` `\d` are not modelled; Unicode whitespace is modelled by an
explicit character set matching `str.isspace`.
-/

/-- Characters stripped by Python `str.strip()` (the `str.isspace` set:
ASCII whitespace, the C1 separators, NBSP and the Unicode space separators). -/
def isPyWs (c : Char) : Bool :=
  c = ' ' || c = '\t' || c = '\n' || c.toNat = 11 || c.toNat = 12 || c = '\r' ||
  (28 ≤ c.toNat && c.toNat ≤ 31) || c.toNat = 133 || c.toNat = 160 ||
  c.toNat = 0x1680 || (0x2000 ≤ c.toNat && c.toNat ≤ 0x200a) ||
  c.toNat = 0x2028 || c.toNat = 0x2029 || c.toNat = 0x202f ||
  c.toNat = 0x205f || c.toNat = 0x3000

/-- The characters removed by `sanitize_filename`, i.e. the regex class
`[<>:"/\\|?*]` in the source. -/
def isInvalidFileChar (c : Char) : Bool :=
  c = '<' || c = '>' || c = ':' || c = '"' || c = '/' || c = '\\' ||
  c = '|' || c = '?' || c = '*'

/-- The `if len(filename) > 240: filename = filename[:240]` step of
`sanitize_filename`. -/
def truncate240 (l : List Char) : List Char :=
  if l.length > 240 then l.take 240 else l

/-- Python `str.strip()`: remove `str.isspace` characters from both ends. -/
def pyStrip (l : List Char) : List Char :=
  List.rdropWhile isPyWs (List.dropWhile isPyWs l)

/-- `sanitize_filename` from the source, on the character list of the input:
`re.sub(r'[<>:"/\\|?*]', '', filename)`, then truncation to 240 characters
when longer, then `.strip()` (both ends). -/
def sanitize_filename (s : List Char) : List Char :=
  pyStrip (truncate240 (s.filter (fun c => !isInvalidFileChar c)))

/-- `sanitize_filename` packaged on `String` (Python `str`). -/
def sanitizeStr (s : String) : String :=
  (sanitize_filename s.toList).asString

/-- A JSON value as produced by `response.json()` (Python object model:
`None`, `bool`, `int`, `str`, `list`, `dict`).  JSON numbers that are not
integers do not occur in the modelled API and are not represented. -/
inductive Json where
  | null : Json
  | bool (b : Bool) : Json
  | num (n : Int) : Json
  | str (s : String) : Json
  | arr (xs : List Json) : Json
  | obj (kvs : List (String × Json)) : Json

/-- Python truthiness (`bool(x)`) of a `Json` value. -/
def pyTruthy : Json → Bool
  | .null => false
  | .bool b => b
  | .num n => n != 0
  | .str s => s ≠ ""
  | .arr xs => !xs.isEmpty
  | .obj kvs => !kvs.isEmpty

mutual
/-- Python `repr()` of a `Json` value.  Escape sequences inside nested string
reprs are not modelled (no claim evaluates a container repr). -/
def pyRepr : Json → String
  | .null => "None"
  | .bool b => if b then "True" else "False"
  | .num n => toString n
  | .str s => (Char.ofNat 39).toString ++ s ++ (Char.ofNat 39).toString
  | .arr xs => "[" ++ pyReprList xs ++ "]"
  | .obj kvs => "\x7b" ++ pyReprObj kvs ++ "\x7d"

/-- Comma-separated reprs of the elements of a Python list. -/
def pyReprList : List Json → String
  | [] => ""
  | [x] => pyRepr x
  | x :: y :: rest => pyRepr x ++ ", " ++ pyReprList (y :: rest)

/-- Comma-separated `key: value` reprs of the entries of a Python dict. -/
def pyReprObj : List (String × Json) → String
  | [] => ""
  | [(k, v)] => pyRepr (Json.str k) ++ ": " ++ pyRepr v
  | (k, v) :: e :: rest =>
      pyRepr (Json.str k) ++ ": " ++ pyRepr v ++ ", " ++ pyReprObj (e :: rest)
end

/-- Python `str()` of a `Json` value, as used by f-string interpolation. -/
def pyStr : Json → String
  | .null => "None"
  | .bool b => if b then "True" else "False"
  | .num n => toString n
  | .str s => s
  | .arr xs => pyRepr (.arr xs)
  | .obj kvs => pyRepr (.obj kvs)

/-- Lookup of a string key in a Python dict (first binding wins, as dict
literals in the source never repeat keys). -/
def dictLookup (d : List (String × Json)) (k : String) : Option Json :=
  (d.find? (fun kv => kv.1 = k)).map (fun kv => kv.2)

/-- `key in hay` for string lists (Python `in` on `str`): substring test. -/
def isPrefixL : List Char → List Char → Bool
  | [], _ => true
  | _ :: _, [] => false
  | a :: as, b :: bs => (a = b) && isPrefixL as bs

/-- Substring occurrence test on character lists. -/
def isSubstrL (n : List Char) : List Char → Bool
  | [] => n.isEmpty
  | c :: t => isPrefixL n (c :: t) || isSubstrL n t

/-- Python `k in x` for a string `k`: key test on a dict, membership on a
list, substring test on a string; `TypeError` on the remaining types. -/
def pyContains (j : Json) (k : String) : Except String Bool :=
  match j with
  | .obj kvs => .ok (kvs.any (fun kv => kv.1 = k))
  | .arr xs => .ok (xs.any (fun x => match x with | .str s => s = k | _ => false))
  | .str s => .ok (isSubstrL k.toList s.toList)
  | _ => .error "TypeError"

/-- Python `x[k]` for a string key `k`: dict lookup (`KeyError` when the key
is missing); `TypeError` on lists, strings and the other types. -/
def pySub (j : Json) (k : String) : Except String Json :=
  match j with
  | .obj kvs =>
      match dictLookup kvs k with
      | some v => .ok v
      | none => .error "KeyError"
  | _ => .error "TypeError"

/-- Python `x.get(k, dflt)`: dict lookup with default; `AttributeError` when
`x` is not a dict. -/
def pyGetD (j : Json) (k : String) (dflt : Json) : Except String Json :=
  match j with
  | .obj kvs =>
      match dictLookup kvs k with
      | some v => .ok v
      | none => .ok dflt
  | _ => .error "AttributeError"

/-- Python `for x in xs`: elements of a list, the characters of a string
(as one-character strings), the keys of a dict; `TypeError` otherwise. -/
def pyIterate : Json → Except String (List Json)
  | .arr xs => .ok xs
  | .str s => .ok (s.toList.map (fun c => Json.str c.toString))
  | .obj kvs => .ok (kvs.map (fun kv => Json.str kv.1))
  | _ => .error "TypeError"

/-- Digit-run parser for Python `int(str)`: digits with single underscores
allowed between digits only. -/
def pyIntDigits : Int → List Char → Option Int
  | acc, [] => some acc
  | acc, '_' :: d :: rest =>
      if d.isDigit then pyIntDigits (acc * 10 + (d.toNat - 48 : Int)) rest else none
  | _, ['_'] => none
  | acc, d :: rest =>
      if d.isDigit then pyIntDigits (acc * 10 + (d.toNat - 48 : Int)) rest else none

/-- Python `int(s)` on a string: surrounding whitespace, optional sign, then
a digit run; `none` models `ValueError`. -/
def pyIntOfStr (s : String) : Option Int :=
  match pyStrip s.toList with
  | '+' :: d :: rest =>
      if d.isDigit then pyIntDigits (d.toNat - 48 : Int) rest else none
  | '-' :: d :: rest =>
      if d.isDigit then (pyIntDigits (d.toNat - 48 : Int) rest).map (fun n => -n) else none
  | d :: rest =>
      if d.isDigit then pyIntDigits (d.toNat - 48 : Int) rest else none
  | [] => none

/-- Python exception classes distinguished by the source's `except` clauses. -/
inductive PyErr where
  | valueError : PyErr
  | typeError : PyErr

/-- Python `int(x)` on a `Json` value: parses strings (`ValueError` on
failure), passes integers through, converts booleans; `TypeError` on
`None`, lists and dicts. -/
def pyInt : Json → Except PyErr Int
  | .str s =>
      match pyIntOfStr s with
      | some n => .ok n
      | none => .error .valueError
  | .num n => .ok n
  | .bool b => .ok (if b then 1 else 0)
  | _ => .error .typeError

/-- A Python `datetime` value.  `strptime` against the source's formats
always yields midnight, so the time of day is a single microsecond count. -/
structure PyDateTime where
  year : Nat
  month : Nat
  day : Nat
  micros : Nat

/-- Injective linear key realising `datetime` comparison for calendar-valid
values (month `1..12`, day `1..31`, sub-day microseconds). -/
def PyDateTime.key (t : PyDateTime) : Nat :=
  ((t.year * 13 + t.month) * 32 + t.day) * 86400000000 + t.micros

/-- Python `datetime.__le__`. -/
def dtLe (a b : PyDateTime) : Bool :=
  a.key ≤ b.key

/-- Gregorian leap-year test, as in Python's `datetime`. -/
def isLeap (y : Nat) : Bool :=
  y % 4 = 0 && (y % 100 ≠ 0 || y % 400 = 0)

/-- Days in a month, as validated by the `datetime` constructor. -/
def daysInMonth (y m : Nat) : Nat :=
  if m = 2 then (if isLeap y then 29 else 28)
  else if m = 4 || m = 6 || m = 9 || m = 11 then 30
  else 31

/-- The `datetime(year, month, day)` constructor: `none` models the
`ValueError` raised on an out-of-range calendar date. -/
def mkDateChecked (y m d : Nat) : Option PyDateTime :=
  if 1 ≤ y ∧ y ≤ 9999 ∧ 1 ≤ m ∧ m ≤ 12 ∧ 1 ≤ d ∧ d ≤ daysInMonth y m then
    some ⟨y, m, d, 0⟩
  else none

/-- Latin-1 lowercasing, as applied by `re.IGNORECASE` to the locale names
occurring in the pt_BR month/weekday vocabulary. -/
def lowerL1 (c : Char) : Char :=
  if ('A' ≤ c ∧ c ≤ 'Z') ∨ (0xC0 ≤ c.toNat ∧ c.toNat ≤ 0xDE ∧ c.toNat ≠ 0xD7) then
    Char.ofNat (c.toNat + 32)
  else c

/-- Case-insensitive literal match: consumes `pat` from the front of the
input, returning the rest. -/
def matchCI : List Char → List Char → Option (List Char)
  | [], s => some s
  | _ :: _, [] => none
  | p :: ps, c :: cs => if lowerL1 c = lowerL1 p then matchCI ps cs else none

/-- `%s+` of `_strptime`: at least one whitespace character, consumed
maximally. -/
def skipWs1 : List Char → Option (List Char)
  | c :: rest => if isPyWs c then some (rest.dropWhile isPyWs) else none
  | [] => none

/-- pt_BR full month names, the `%B` vocabulary under the configured locale. -/
def pyMonths : List String :=
  ["janeiro", "fevereiro", "março", "abril", "maio", "junho",
   "julho", "agosto", "setembro", "outubro", "novembro", "dezembro"]

/-- pt_BR full weekday names, the `%A` vocabulary under the configured
locale. -/
def pyWeekdays : List String :=
  ["segunda-feira", "terça-feira", "quarta-feira", "quinta-feira",
   "sexta-feira", "sábado", "domingo"]

/-- First name of `names` (1-based index) matching case-insensitively at the
front of the input.  No name in either vocabulary is a prefix of another, so
the regex alternation order is immaterial. -/
def matchName (names : List String) (i : Nat) (s : List Char) : Option (Nat × List Char) :=
  match names with
  | [] => none
  | n :: rest =>
      match matchCI n.toList s with
      | some r => some (i, r)
      | none => matchName rest (i + 1) s

/-- `%d`: two digits in `01..31`. -/
def parseDay2 : List Char → Option (Nat × List Char)
  | c1 :: c2 :: rest =>
      if c1.isDigit ∧ c2.isDigit then
        let v := (c1.toNat - 48) * 10 + (c2.toNat - 48)
        if 1 ≤ v ∧ v ≤ 31 then some (v, rest) else none
      else none
  | _ => none

/-- `%d` fallback alternative: a single digit in `1..9`. -/
def parseDay1 : List Char → Option (Nat × List Char)
  | c :: rest => if c.isDigit ∧ c ≠ '0' then some (c.toNat - 48, rest) else none
  | _ => none

/-- `%Y`: exactly four digits. -/
def parseYear4 : List Char → Option (Nat × List Char)
  | a :: b :: c :: d :: rest =>
      if a.isDigit ∧ b.isDigit ∧ c.isDigit ∧ d.isDigit then
        some ((a.toNat - 48) * 1000 + (b.toNat - 48) * 100 +
              (c.toNat - 48) * 10 + (d.toNat - 48), rest)
      else none
  | _ => none

/-- The `" de %B de %Y"` tail shared by both formats: whitespace, literal
`de`, whitespace, month name, whitespace, literal `de`, whitespace, year. -/
def parseDeTail (s : List Char) : Option (Nat × Nat × List Char) := do
  let r ← skipWs1 s
  let r ← matchCI "de".toList r
  let r ← skipWs1 r
  let (m, r) ← matchName pyMonths 1 r
  let r ← skipWs1 r
  let r ← matchCI "de".toList r
  let r ← skipWs1 r
  let (y, r) ← parseYear4 r
  some (m, y, r)

/-- Regex match of `%d de %B de %Y` against a character list: the two-digit
day alternative first, the one-digit alternative on backtracking. -/
def matchSemDia (s : List Char) : Option (Nat × Nat × Nat × List Char) :=
  match (do
    let (d, r) ← parseDay2 s
    let (m, y, r2) ← parseDeTail r
    some (d, m, y, r2) : Option (Nat × Nat × Nat × List Char)) with
  | some res => some res
  | none => do
      let (d, r) ← parseDay1 s
      let (m, y, r2) ← parseDeTail r
      some (d, m, y, r2)

/-- `datetime.strptime(s, '%d de %B de %Y')`: the regex must consume the
whole input, then the date is validated by the `datetime` constructor. -/
def strptimeSemDia (s : String) : Option PyDateTime := do
  let (d, m, y, rest) ← matchSemDia s.toList
  if rest.isEmpty then mkDateChecked y m d else none

/-- `datetime.strptime(s, '%A, %d de %B de %Y')`: a weekday name (parsed and
discarded, as `strptime` does for a fully determined date), a literal comma,
whitespace, then the day-month-year core; whole-input match plus validation. -/
def strptimeComDia (s : String) : Option PyDateTime := do
  let (_, r) ← matchName pyWeekdays 1 s.toList
  let r ← match r with
          | ',' :: rr => some rr
          | _ => none
  let r ← skipWs1 r
  let (d, m, y, rest) ← matchSemDia r
  if rest.isEmpty then mkDateChecked y m d else none

/-- The ordered format list of `converter_data`: first the format with the
weekday name, then the one without. -/
def formatos : List (String → Option PyDateTime) :=
  [strptimeComDia, strptimeSemDia]

/-- `converter_data` from the source: try each format in order inside
`try/except ValueError`, returning the first successful parse, `None` when
every format fails (after logging a warning). -/
def converter_data (data_str : String) : Option PyDateTime :=
  formatos.findSome? (fun f => f data_str)

/-- `is_date_in_range` from the source.  The candidate is the raw `Json`
field value: a non-string makes `strptime` raise `TypeError`, which escapes
`converter_data` (whose handler catches only `ValueError`) and is caught by
the enclosing `except Exception`, yielding `False`.  A parsed date (always
truthy) is compared inclusively on both ends. -/
def is_date_in_range (date_str : Json) (start_date end_date : PyDateTime) : Bool :=
  match date_str with
  | .str s =>
      match converter_data s with
      | some date => dtLe start_date date && dtLe date end_date
      | none => false
  | _ => false

/-- `is_edition_in_range` from the source: `int(edition)` inside
`try/except ValueError`; a `ValueError` yields `False` with a warning, but a
`TypeError` (e.g. `None`, list or dict candidates) is not caught and
propagates. -/
def is_edition_in_range (edition : Json) (start_edition end_edition : Int) : Except String Bool :=
  match pyInt edition with
  | .ok n => .ok (start_edition ≤ n ∧ n ≤ end_edition)
  | .error .valueError => .ok false
  | .error .typeError => .error "TypeError"

/-- The destination-folder state: an association of file paths to byte
contents. -/
def FS : Type := List (String × List Nat)

/-- `os.path.exists` / reading back: lookup of a path. -/
def fsLookup (fs : FS) (p : String) : Option (List Nat) :=
  (List.find? (fun e => e.1 = p) fs).map (fun e => e.2)

/-- `open(path, 'wb').write(content)`: truncating write. -/
def fsWrite (fs : FS) (p : String) (content : List Nat) : FS :=
  (p, content) :: List.filter (fun e => !(e.1 = p : Bool)) fs

/-- Outcome of one `requests.get`: a status/body response, or a raised
exception. -/
inductive HttpResult where
  | resp (status : Nat) (body : List Nat) : HttpResult
  | exn (msg : String) : HttpResult

/-- A record under construction, the `diario_info` dict of the source: an
association of string keys to Python values. -/
def RecDict : Type := List (String × Json)

/-- `PDF_FOLDER` from the source. -/
def PDF_FOLDER : String := "Diarios_PDFs"

/-- The fixed URL prefix prepended to `media.url` in the source. -/
def pdfUrlBase : String := "https://publicacoes.boavista.rr.gov.br"

/-- `download_pdf` from the source, over an explicit HTTP oracle and folder
state.  Returns the Python return value, the updated folder state, and the
list of URLs requested (for the no-retry property).  The `try/except` wrapper
means every failure path — falsy URL, raised request, non-200 status, or a
`KeyError` on `diario_info` — returns `None` with the folder unchanged. -/
def download_pdf (http : String → HttpResult) (fs : FS) (pdf_url : Option String)
    (folder_path : String) (diario_info : RecDict) :
    Option String × FS × List String :=
  match pdf_url with
  | none => (none, fs, [])
  | some u =>
    if u = "" then (none, fs, [])
    else
      match http u with
      | .exn _ => (none, fs, [u])
      | .resp status content =>
        if status = 200 then
          match dictLookup diario_info "Edicao" with
          | none => (none, fs, [u])
          | some ed =>
            match dictLookup diario_info "Data" with
            | none => (none, fs, [u])
            | some da =>
              let filename :=
                sanitizeStr ("Diario_" ++ pyStr ed ++ "_" ++ pyStr da ++ ".pdf")
              let filepath := folder_path ++ "/" ++ filename
              match fsLookup fs filepath with
              | none => (some filepath, fsWrite fs filepath content, [u])
              | some _ => (some filepath, fs, [u])
        else (none, fs, [u])

/-- The derived target path of `download_pdf` for a record. -/
def downloadPath (folder_path : String) (ed da : Json) : String :=
  folder_path ++ "/" ++ sanitizeStr ("Diario_" ++ pyStr ed ++ "_" ++ pyStr da ++ ".pdf")

/-- The `pdf_url` expression of the source:
`f"...{diario['media']['url']}" if diario.get("media") and diario["media"].get("url") else None`.
`.get` on a truthy non-dict `media` raises `AttributeError`. -/
def computePdfUrl (diario : Json) : Except String (Option String) :=
  match pyGetD diario "media" Json.null with
  | .error e => .error e
  | .ok m =>
    if pyTruthy m then
      match pyGetD m "url" Json.null with
      | .error e => .error e
      | .ok u =>
        if pyTruthy u then .ok (some (pdfUrlBase ++ pyStr u)) else .ok none
    else .ok none

/-- Truthiness of the Python value held by an `Option String` (`None` or a
string). -/
def optStrTruthy : Option String → Bool
  | none => false
  | some s => s ≠ ""

/-- The Python value held by an `Option String` as it is stored in a dict
(`None` or a `str`). -/
def optStrJson : Option String → Json
  | some u => Json.str u
  | none => Json.null

/-- One iteration of the `for diario in data["data"]` body: extract the
fields, apply the active filter, build `diario_info`, append it, then
attempt the download (whose return value the source discards).  `none` in
the first component means the item was skipped by `continue`. -/
def processItem (start_date end_date : Option PyDateTime)
    (start_edition end_edition : Option Int) (http : String → HttpResult)
    (diario : Json) (fs : FS) : Except String (Option RecDict × FS) :=
  match pyGetD diario "edicao" (Json.str "") with
  | .error e => .error e
  | .ok edicao =>
  match pyGetD diario "data" (Json.str "") with
  | .error e => .error e
  | .ok data_publicacao =>
  match computePdfUrl diario with
  | .error e => .error e
  | .ok pdf_url =>
  match (match pyGetD diario "meta" (Json.obj []) with
         | .error e => .error e
         | .ok m => pyGetD m "pages" (Json.str "") : Except String Json) with
  | .error e => .error e
  | .ok paginas =>
  match (match pyGetD diario "meta" (Json.obj []) with
         | .error e => .error e
         | .ok m => pyGetD m "size" (Json.str "") : Except String Json) with
  | .error e => .error e
  | .ok tamanho =>
  let keep : Except String (Option RecDict × FS) :=
    let info : RecDict :=
      [("Edicao", edicao), ("Data", data_publicacao), ("Paginas", paginas),
       ("Tamanho", tamanho), ("PDF_URL", optStrJson pdf_url)]
    if optStrTruthy pdf_url then
      .ok (some info, (download_pdf http fs pdf_url PDF_FOLDER info).2.1)
    else
      .ok (some info, fs)
  let editionStage : Except String (Option RecDict × FS) :=
    match start_edition, end_edition with
    | some se, some ee =>
      if se ≠ 0 ∧ ee ≠ 0 then
        match is_edition_in_range edicao se ee with
        | .error e => .error e
        | .ok true => keep
        | .ok false => .ok (none, fs)
      else keep
    | _, _ => keep
  match start_date, end_date with
  | some sd, some ed =>
    if is_date_in_range data_publicacao sd ed then editionStage
    else .ok (none, fs)
  | _, _ => editionStage

/-- The `for diario in data["data"]` loop: items in order, threading the
folder state and prepending appended records (reversed on return). -/
def processItems (start_date end_date : Option PyDateTime)
    (start_edition end_edition : Option Int) (http : String → HttpResult) :
    List Json → FS → List RecDict → Except String (List RecDict × FS)
  | [], fs, acc => .ok (acc, fs)
  | d :: ds, fs, acc =>
    match processItem start_date end_date start_edition end_edition http d fs with
    | .error e => .error e
    | .ok (none, fs2) => processItems start_date end_date start_edition end_edition http ds fs2 acc
    | .ok (some r, fs2) => processItems start_date end_date start_edition end_edition http ds fs2 (r :: acc)

/-- `data["links"]["next"]` truthiness: two subscripts (each can raise), then
Python truthiness of the cursor. -/
def pyLinksNext (j : Json) : Except String Bool :=
  match pySub j "links" with
  | .error e => .error e
  | .ok links =>
    match pySub links "next" with
    | .error e => .error e
    | .ok nxt => .ok (pyTruthy nxt)

/-- The `while True` page loop of `process_diarios_by_filter`.  The input
list holds the successive `fetch_diarios` outcomes (`none` = non-200 status
or raised request, both of which make `fetch_diarios` return `None`); pages
beyond the list also yield `none`.  Returns the collected records (in append
order), the folder state, and the number of `fetch_diarios` calls made. -/
def process_pages (start_date end_date : Option PyDateTime)
    (start_edition end_edition : Option Int) (http : String → HttpResult) :
    List (Option Json) → FS → List RecDict → Except String (List RecDict × FS × Nat)
  | [], fs, acc => .ok (acc.reverse, fs, 1)
  | none :: _, fs, acc => .ok (acc.reverse, fs, 1)
  | some j :: rest, fs, acc =>
    if !pyTruthy j then .ok (acc.reverse, fs, 1)
    else
      match pyContains j "data" with
      | .error e => .error e
      | .ok false => .ok (acc.reverse, fs, 1)
      | .ok true =>
        match (match pySub j "data" with
               | .error e => .error e
               | .ok items => pyIterate items : Except String (List Json)) with
        | .error e => .error e
        | .ok ds =>
          match processItems start_date end_date start_edition end_edition http ds fs acc with
          | .error e => .error e
          | .ok (acc2, fs2) =>
            match pyLinksNext j with
            | .error e => .error e
            | .ok false => .ok (acc2.reverse, fs2, 1)
            | .ok true =>
              match process_pages start_date end_date start_edition end_edition http rest fs2 acc2 with
              | .error e => .error e
              | .ok (recs, fs3, n) => .ok (recs, fs3, n + 1)

/-- `process_diarios_by_filter` from the source: walk the pages starting at
page 1 with an empty record list, over the initial folder state (the
`os.makedirs(..., exist_ok=True)` keeps any pre-existing files). -/
def process_diarios_by_filter (start_date end_date : Option PyDateTime)
    (start_edition end_edition : Option Int) (http : String → HttpResult)
    (pages : List (Option Json)) (fs : FS) : Except String (List RecDict × FS × Nat) :=
  process_pages start_date end_date start_edition end_edition http pages fs []

/-- Observable operations of a pipeline run against the Watermark Store. -/
inductive WmEvent where
  | load (v : Option Int) : WmEvent
  | attempt (id : Int) : WmEvent
  | save (v : Int) : WmEvent

/-- Whether an event is a `save`. -/
def WmEvent.isSave : WmEvent → Bool
  | .save _ => true
  | _ => false

/-- Whether an event is a `load`. -/
def WmEvent.isLoad : WmEvent → Bool
  | .load _ => true
  | _ => false

/-- Maximum of a list of identifiers, `none` on the empty list. -/
def wmMax : List Int → Option Int
  | [] => none
  | i :: rest =>
    match wmMax rest with
    | none => some i
    | some m => some (max i m)

/-- Modelled from the spec: the Watermark Store (§4.5 `load`/`save`) and the
Orchestrator's end-of-run watermark update (§4.4, §3 "Watermark") are code of
the numbered-records variant of this repository that is not under `src/`;
the gazette script in `src/SAPLscraper.py` has no watermark code.  A run
attempts every identifier of its work list; a resumed run loads the stored
value first; a successful run with at least one attempted identifier saves
the maximum attempted identifier once, at the very end.  Returns the store
contents after the run and the event trace. -/
def specWatermarkRun (resume : Bool) (store : Option Int) (ids : List Int) :
    Option Int × List WmEvent :=
  let pre := if resume then [WmEvent.load store] else []
  match wmMax ids with
  | some m => (some m, pre ++ ids.map WmEvent.attempt ++ [WmEvent.save m])
  | none => (store, pre ++ ids.map WmEvent.attempt)

/-- A sample gazette entry as served by the API. -/
def sampleDiario : Json :=
  Json.obj [("edicao", Json.num 7), ("data", Json.str "x"),
            ("media", Json.obj [("url", Json.str "/a.pdf")])]

/-- A sample final page holding `sampleDiario` (`links.next` null). -/
def samplePage : Json :=
  Json.obj [("data", Json.arr [sampleDiario]),
            ("links", Json.obj [("next", Json.null)])]

/-- A sample page with no entries and a truthy `links.next` cursor. -/
def samplePageNext : Json :=
  Json.obj [("data", Json.arr []),
            ("links", Json.obj [("next", Json.str "n")])]

/-- The record the pipeline builds from `sampleDiario`. -/
def sampleRec : RecDict :=
  [("Edicao", Json.num 7), ("Data", Json.str "x"), ("Paginas", Json.str ""),
   ("Tamanho", Json.str ""),
   ("PDF_URL", Json.str "https://publicacoes.boavista.rr.gov.br/a.pdf")]

/-! ## Theorems -/

theorem pyStrip_subset (p : α → Bool) (l : List α) :
    List.rdropWhile p (List.dropWhile p l) ⊆ l := fun _ h =>
  (List.dropWhile_sublist p).subset ((List.rdropWhile_prefix p _).sublist.subset h)

theorem truncate240_subset (l : List Char) : truncate240 l ⊆ l := by
  unfold truncate240
  split
  · exact (List.take_sublist _ _).subset
  · exact fun _ h => h

theorem truncate240_length_le (l : List Char) : (truncate240 l).length ≤ 240 := by
  unfold truncate240
  split
  · rw [List.length_take]
    exact Nat.min_le_left _ _
  · omega

theorem sanitize_filename_mem {s : List Char} {c : Char}
    (h : c ∈ sanitize_filename s) : isInvalidFileChar c = false := by
  have h2 : c ∈ s.filter (fun c => !isInvalidFileChar c) :=
    truncate240_subset _ (pyStrip_subset isPyWs _ h)
  simpa using (List.mem_filter.mp h2).2

theorem sanitize_filename_length_le (s : List Char) :
    (sanitize_filename s).length ≤ 240 := by
  have h1 : (sanitize_filename s).length ≤
      (truncate240 (s.filter (fun c => !isInvalidFileChar c))).length := by
    have ha := (List.rdropWhile_prefix isPyWs
      (List.dropWhile isPyWs (truncate240 (s.filter (fun c => !isInvalidFileChar c))))).sublist.length_le
    have hb := (List.dropWhile_sublist (l := truncate240 (s.filter (fun c => !isInvalidFileChar c))) isPyWs).length_le
    exact le_trans ha hb
  exact le_trans h1 (truncate240_length_le _)

theorem head?_dropWhile_not (p : α → Bool) :
    ∀ (l : List α) {c : α}, (l.dropWhile p).head? = some c → p c = false := by
  intro l
  induction l with
  | nil => intro c h; simp at h
  | cons a l ih =>
      intro c h
      rw [List.dropWhile_cons] at h
      by_cases hp : p a = true
      · exact ih (by simpa [hp] using h)
      · rw [if_neg hp] at h
        simp only [List.head?_cons, Option.some.injEq] at h
        subst h
        simpa using hp

theorem isPrefix_head?_eq {l₁ l₂ : List α} (h : l₁ <+: l₂) {c : α}
    (hc : l₁.head? = some c) : l₂.head? = some c := by
  obtain ⟨t, rfl⟩ := h
  cases l₁ with
  | nil => simp at hc
  | cons a l => simpa using hc

theorem pyStrip_head {l : List Char} {c : Char}
    (h : (pyStrip l).head? = some c) : isPyWs c = false := by
  have h2 : (List.dropWhile isPyWs l).head? = some c :=
    isPrefix_head?_eq (List.rdropWhile_prefix isPyWs _) h
  exact head?_dropWhile_not isPyWs l h2

theorem pyStrip_last {l : List Char} {c : Char}
    (h : (pyStrip l).getLast? = some c) : isPyWs c = false := by
  unfold pyStrip at h
  have hne : List.rdropWhile isPyWs (List.dropWhile isPyWs l) ≠ [] := by
    intro hh
    rw [hh] at h
    simp at h
  have h2 := List.getLast?_eq_getLast_of_ne_nil hne
  rw [h2, Option.some.injEq] at h
  have h3 := List.rdropWhile_last_not isPyWs (List.dropWhile isPyWs l) hne
  rw [h] at h3
  simpa using h3

theorem dropWhile_pyStrip (l : List Char) :
    List.dropWhile isPyWs (pyStrip l) = pyStrip l := by
  cases hw : pyStrip l with
  | nil => simp
  | cons c t =>
      have hc : (pyStrip l).head? = some c := by rw [hw]; rfl
      have hne := pyStrip_head hc
      rw [List.dropWhile_cons, if_neg (by simp [hne])]

theorem rdropWhile_pyStrip (l : List Char) :
    List.rdropWhile isPyWs (pyStrip l) = pyStrip l := by
  apply List.rdropWhile_eq_self_iff.mpr
  intro hl
  have h2 := List.getLast?_eq_getLast_of_ne_nil hl
  have h3 := pyStrip_last (l := l) h2
  simp [h3]

theorem pyStrip_idem (l : List Char) : pyStrip (pyStrip l) = pyStrip l := by
  show List.rdropWhile isPyWs (List.dropWhile isPyWs (pyStrip l)) = pyStrip l
  rw [dropWhile_pyStrip, rdropWhile_pyStrip]

/-- C3: For every input string, the output of `sanitize_filename` contains
none of the characters `< > : " / \ | ? *`, has length at most 240, and has
no leading or trailing whitespace. -/
theorem C3_sanitize_filename_safe (s : List Char) :
    (∀ c ∈ sanitize_filename s, isInvalidFileChar c = false) ∧
    (sanitize_filename s).length ≤ 240 ∧
    (∀ c, (sanitize_filename s).head? = some c → isPyWs c = false) ∧
    (∀ c, (sanitize_filename s).getLast? = some c → isPyWs c = false) :=
  ⟨fun _ hc => sanitize_filename_mem hc,
   sanitize_filename_length_le s,
   fun _ hc => pyStrip_head hc,
   fun _ hc => pyStrip_last hc⟩

/-- Witness for C3 at the concrete input `" a<b x "` (whose sanitized form
is `"ab x"`). -/
theorem C3_sanitize_filename_safe_witness :
    isInvalidFileChar 'b' = false ∧ isPyWs 'a' = false ∧ isPyWs 'x' = false :=
  ⟨(C3_sanitize_filename_safe " a<b x ".toList).1 'b' (by decide),
   (C3_sanitize_filename_safe " a<b x ".toList).2.2.1 'a' (by rfl),
   (C3_sanitize_filename_safe " a<b x ".toList).2.2.2 'x' (by rfl)⟩

/-- C10: `sanitize_filename` is idempotent: sanitizing an already sanitized
name changes nothing (no illegal characters remain to strip, the length cap
cannot re-trigger, and both ends are already free of whitespace). -/
theorem C10_sanitize_filename_idempotent (s : List Char) :
    sanitize_filename (sanitize_filename s) = sanitize_filename s := by
  have hfilter : (sanitize_filename s).filter (fun c => !isInvalidFileChar c)
      = sanitize_filename s :=
    List.filter_eq_self.mpr (fun c hc => by simp [sanitize_filename_mem hc])
  have hle := sanitize_filename_length_le s
  have htrunc : truncate240 (sanitize_filename s) = sanitize_filename s := by
    unfold truncate240
    rw [if_neg (by omega)]
  show pyStrip (truncate240 ((sanitize_filename s).filter
      (fun c => !isInvalidFileChar c))) = sanitize_filename s
  rw [hfilter, htrunc]
  show pyStrip (pyStrip (truncate240 (s.filter (fun c => !isInvalidFileChar c))))
      = sanitize_filename s
  rw [pyStrip_idem]
  rfl

/-- C5: `converter_data` tries the fixed ordered format list (first the
format with the weekday name, then the one without) and uses the first
successful parse; an unparseable candidate makes `is_date_in_range` return
`false` instead of raising; a successfully parsed date is in range iff
`start <= date <= end`, inclusive on both ends. -/
theorem C5_date_filter_first_parse (s : String) (sd ed : PyDateTime) :
    (converter_data s = match strptimeComDia s with
                        | some d => some d
                        | none => strptimeSemDia s) ∧
    (converter_data s = none → is_date_in_range (Json.str s) sd ed = false) ∧
    (∀ d, converter_data s = some d →
      is_date_in_range (Json.str s) sd ed = (dtLe sd d && dtLe d ed)) := by
  refine ⟨?_, ?_, ?_⟩
  · unfold converter_data formatos
    cases hc : strptimeComDia s <;>
      cases hs : strptimeSemDia s <;>
      simp [List.findSome?_cons, List.findSome?_nil, hc, hs]
  · intro h
    simp only [is_date_in_range]
    rw [h]
  · intro d h
    simp only [is_date_in_range]
    rw [h]

/-- Witness for C5: `"15 de março de 2023"` parses via the no-weekday format
and lies in `[2023-01-01 00:00, 2023-12-31 23:59:59.999999]`; `"not a date"`
is classified out of range without an error. -/
theorem C5_date_filter_first_parse_witness :
    is_date_in_range (Json.str "15 de março de 2023")
      ⟨2023, 1, 1, 0⟩ ⟨2023, 12, 31, 86399999999⟩ = true ∧
    is_date_in_range (Json.str "not a date")
      ⟨2023, 1, 1, 0⟩ ⟨2023, 12, 31, 86399999999⟩ = false := by
  constructor
  · rw [(C5_date_filter_first_parse "15 de março de 2023" ⟨2023, 1, 1, 0⟩
      ⟨2023, 12, 31, 86399999999⟩).2.2 ⟨2023, 3, 15, 0⟩ (by rfl)]
    rfl
  · exact (C5_date_filter_first_parse "not a date" ⟨2023, 1, 1, 0⟩
      ⟨2023, 12, 31, 86399999999⟩).2.1 (by rfl)

/-- C6 counterexample: the claim says every non-numeric candidate yields a
logged warning and `False`, but the candidate `None` (a JSON `null` edition
field) makes `int()` raise `TypeError`, which the source's
`except ValueError` does not catch — the call raises instead of returning
`False`. -/
theorem C6_counterexample :
    is_edition_in_range Json.null 1 20 = Except.error "TypeError" := rfl

/-- C6 (amended): the filter parses the candidate with `int()` and returns
`start_edition <= edition <= end_edition` inclusively on success; a
non-numeric STRING candidate logs a warning and returns `false` rather than
raising (`int` and `bool` candidates convert); but a non-string non-numeric
candidate (`None`, list, dict) raises an uncaught `TypeError`. -/
theorem C6_edition_filter_amended (s : String) (n lo hi : Int)
    (b : Bool) (xs : List Json) (kvs : List (String × Json)) :
    (pyIntOfStr s = none → is_edition_in_range (Json.str s) lo hi = .ok false) ∧
    (pyIntOfStr s = some n →
      is_edition_in_range (Json.str s) lo hi = .ok (decide (lo ≤ n ∧ n ≤ hi))) ∧
    (is_edition_in_range (Json.num n) lo hi = .ok (decide (lo ≤ n ∧ n ≤ hi))) ∧
    (is_edition_in_range (Json.bool b) lo hi
      = .ok (decide (lo ≤ (if b then (1 : Int) else 0) ∧ (if b then (1 : Int) else 0) ≤ hi))) ∧
    (is_edition_in_range Json.null lo hi = .error "TypeError") ∧
    (is_edition_in_range (Json.arr xs) lo hi = .error "TypeError") ∧
    (is_edition_in_range (Json.obj kvs) lo hi = .error "TypeError") := by
  refine ⟨?_, ?_, rfl, rfl, rfl, rfl, rfl⟩ <;>
    intro h <;> simp [is_edition_in_range, pyInt, h]

/-- Witness for C6 (amended): `"abc"` is rejected with `False`, `"12"` lies
inclusively in `[1, 20]`. -/
theorem C6_edition_filter_amended_witness :
    is_edition_in_range (Json.str "abc") 1 20 = .ok false ∧
    is_edition_in_range (Json.str "12") 1 20 = .ok true := by
  constructor
  · exact (C6_edition_filter_amended "abc" 0 1 20 false [] []).1 (by rfl)
  · rw [(C6_edition_filter_amended "12" 12 1 20 false [] []).2.1 (by rfl)]
    rfl

theorem fsLookup_fsWrite (fs : FS) (p : String) (c : List Nat) :
    fsLookup (fsWrite fs p c) p = some c := by
  simp [fsLookup, fsWrite]

theorem download_pdf_200 (http : String → HttpResult) (fs : FS)
    (u folder : String) (info : RecDict) (body : List Nat) (ed da : Json)
    (hu : u ≠ "") (hresp : http u = .resp 200 body)
    (hed : dictLookup info "Edicao" = some ed)
    (hda : dictLookup info "Data" = some da) :
    download_pdf http fs (some u) folder info =
      (match fsLookup fs (downloadPath folder ed da) with
       | none => (some (downloadPath folder ed da),
                  fsWrite fs (downloadPath folder ed da) body, [u])
       | some _ => (some (downloadPath folder ed da), fs, [u])) := by
  simp [download_pdf, downloadPath, hu, hresp, hed, hda]

/-- C7: `download_pdf` returns the derived file path on a 200 response (for
the records the pipeline builds, whose `Edicao`/`Data` keys are present);
after a null/falsy URL, a raised request, or a non-200 status it returns
`None`; and it issues at most one HTTP request per call (no retry). -/
theorem C7_download_pdf_outcomes (http : String → HttpResult) (fs : FS)
    (folder : String) (info : RecDict) (u : String) (pdf_url : Option String)
    (st : Nat) (body : List Nat) (e : String) :
    (download_pdf http fs none folder info = (none, fs, [])) ∧
    (download_pdf http fs (some "") folder info = (none, fs, [])) ∧
    (u ≠ "" → http u = .exn e →
      download_pdf http fs (some u) folder info = (none, fs, [u])) ∧
    (u ≠ "" → http u = .resp st body → st ≠ 200 →
      download_pdf http fs (some u) folder info = (none, fs, [u])) ∧
    (∀ ed da, u ≠ "" → http u = .resp 200 body →
      dictLookup info "Edicao" = some ed → dictLookup info "Data" = some da →
      download_pdf http fs (some u) folder info =
        (some (downloadPath folder ed da),
         (match fsLookup fs (downloadPath folder ed da) with
          | none => fsWrite fs (downloadPath folder ed da) body
          | some _ => fs),
         [u])) ∧
    ((download_pdf http fs pdf_url folder info).2.2.length ≤ 1) := by
  refine ⟨rfl, by simp [download_pdf], ?_, ?_, ?_, ?_⟩
  · intro hu he
    simp [download_pdf, hu, he]
  · intro hu hr hst
    simp [download_pdf, hu, hr, hst]
  · intro ed da hu hr hed hda
    rw [download_pdf_200 http fs u folder info body ed da hu hr hed hda]
    cases hfs : fsLookup fs (downloadPath folder ed da) <;> simp [hfs]
  · unfold download_pdf
    repeat' split <;> try simp

/-- Witness for C7 at concrete inputs: a 404 response yields `None` with one
request made and the folder untouched. -/
theorem C7_download_pdf_outcomes_witness :
    download_pdf (fun _ => HttpResult.resp 404 []) [] (some "u") "Diarios_PDFs"
      [("Edicao", Json.num 7), ("Data", Json.str "x")] = (none, [], ["u"]) :=
  (C7_download_pdf_outcomes (fun _ => HttpResult.resp 404 []) [] "Diarios_PDFs"
    [("Edicao", Json.num 7), ("Data", Json.str "x")] "u" none 404 [] "").2.2.2.1
    (by decide) rfl (by decide)

/-- C2: calling `download_pdf` twice with the same URL, folder and record
(hence the same derived sanitized filename): when the file is initially
absent and the server answers 200, the first call performs the only write;
the second call detects the existing file, skips the write, leaves the
folder state (and hence the file content) unchanged, and returns the same
path. -/
theorem C2_download_pdf_idempotent (http : String → HttpResult) (fs0 : FS)
    (u folder : String) (info : RecDict) (body : List Nat) (ed da : Json)
    (hu : u ≠ "") (hresp : http u = .resp 200 body)
    (hed : dictLookup info "Edicao" = some ed)
    (hda : dictLookup info "Data" = some da)
    (h0 : fsLookup fs0 (downloadPath folder ed da) = none) :
    download_pdf http fs0 (some u) folder info =
      (some (downloadPath folder ed da),
       fsWrite fs0 (downloadPath folder ed da) body, [u]) ∧
    download_pdf http (fsWrite fs0 (downloadPath folder ed da) body)
        (some u) folder info =
      (some (downloadPath folder ed da),
       fsWrite fs0 (downloadPath folder ed da) body, [u]) := by
  constructor
  · rw [download_pdf_200 http fs0 u folder info body ed da hu hresp hed hda, h0]
  · rw [download_pdf_200 http (fsWrite fs0 (downloadPath folder ed da) body)
      u folder info body ed da hu hresp hed hda,
      fsLookup_fsWrite fs0 (downloadPath folder ed da) body]

/-- Witness for C2 at concrete inputs: first call writes
`Diarios_PDFs/Diario_7_x.pdf`, second call returns the same path over the
unchanged folder state. -/
theorem C2_download_pdf_idempotent_witness :
    downloadPath "Diarios_PDFs" (Json.num 7) (Json.str "x")
      = "Diarios_PDFs/Diario_7_x.pdf" ∧
    download_pdf (fun _ => HttpResult.resp 200 [1]) [] (some "u") "Diarios_PDFs"
        [("Edicao", Json.num 7), ("Data", Json.str "x")] =
      (some (downloadPath "Diarios_PDFs" (Json.num 7) (Json.str "x")),
       fsWrite [] (downloadPath "Diarios_PDFs" (Json.num 7) (Json.str "x")) [1],
       ["u"]) ∧
    download_pdf (fun _ => HttpResult.resp 200 [1])
        (fsWrite [] (downloadPath "Diarios_PDFs" (Json.num 7) (Json.str "x")) [1])
        (some "u") "Diarios_PDFs" [("Edicao", Json.num 7), ("Data", Json.str "x")] =
      (some (downloadPath "Diarios_PDFs" (Json.num 7) (Json.str "x")),
       fsWrite [] (downloadPath "Diarios_PDFs" (Json.num 7) (Json.str "x")) [1],
       ["u"]) := by
  have h := C2_download_pdf_idempotent (fun _ => HttpResult.resp 200 [1]) []
    "u" "Diarios_PDFs" [("Edicao", Json.num 7), ("Data", Json.str "x")] [1]
    (Json.num 7) (Json.str "x") (by decide) rfl rfl rfl rfl
  exact ⟨rfl, h.1, h.2⟩

/-- C9 (spec-modelled): in a run whose maximum successfully attempted
identifier is `m`, the watermark is saved exactly once, as the final
operation, with value `m`, and the store afterwards holds `m`; a resumed run
loads the store exactly once, as its first operation; a non-resumed run
never loads. -/
theorem C9_watermark_once (resume : Bool) (store : Option Int) (ids : List Int)
    (m : Int) (hm : wmMax ids = some m) :
    (specWatermarkRun resume store ids).1 = some m ∧
    ((specWatermarkRun resume store ids).2.countP WmEvent.isSave = 1) ∧
    ((specWatermarkRun resume store ids).2.getLast? = some (WmEvent.save m)) ∧
    ((specWatermarkRun resume store ids).2.countP WmEvent.isLoad
      = if resume then 1 else 0) ∧
    (resume = true →
      (specWatermarkRun resume store ids).2.head? = some (WmEvent.load store)) := by
  unfold specWatermarkRun
  rw [hm]
  dsimp only
  refine ⟨rfl, ?_, ?_, ?_, ?_⟩
  · cases resume <;>
      simp [List.countP_append, List.countP_map, List.countP_cons,
        Function.comp, WmEvent.isSave, List.countP_eq_zero]
  · rw [List.getLast?_concat]
  · cases resume <;>
      simp [List.countP_append, List.countP_map, List.countP_cons,
        Function.comp, WmEvent.isLoad, List.countP_eq_zero]
  · intro hr
    subst hr
    simp

/-- Witness for C9: a resumed run over attempted identifiers
`[100, 101, 103]` stores 103 and ends with `save 103`. -/
theorem C9_watermark_once_witness :
    (specWatermarkRun true (some 99) [100, 101, 103]).1 = some 103 ∧
    (specWatermarkRun true (some 99) [100, 101, 103]).2.getLast?
      = some (WmEvent.save 103) := by
  have h := C9_watermark_once true (some 99) [100, 101, 103] 103 (by decide)
  exact ⟨h.1, h.2.2.1⟩

theorem processItem_keys (sd ed : Option PyDateTime) (se ee : Option Int)
    (http : String → HttpResult) (diario : Json) (fs : FS) (r : RecDict) (fs2 : FS)
    (h : processItem sd ed se ee http diario fs = .ok (some r, fs2)) :
    r.map Prod.fst = ["Edicao", "Data", "Paginas", "Tamanho", "PDF_URL"] := by
  simp only [processItem] at h
  repeat' split at h
  all_goals simp_all
  all_goals
    obtain ⟨h1, -⟩ := h
  all_goals
    subst h1
  all_goals rfl

theorem processItems_keys (sd ed : Option PyDateTime) (se ee : Option Int)
    (http : String → HttpResult) :
    ∀ (ds : List Json) (fs : FS) (acc : List RecDict) (out : List RecDict × FS),
      processItems sd ed se ee http ds fs acc = .ok out →
      (∀ r ∈ acc, r.map Prod.fst = ["Edicao", "Data", "Paginas", "Tamanho", "PDF_URL"]) →
      ∀ r ∈ out.1, r.map Prod.fst = ["Edicao", "Data", "Paginas", "Tamanho", "PDF_URL"] := by
  intro ds
  induction ds with
  | nil =>
      intro fs acc out h hacc
      simp only [processItems] at h
      injection h with h1
      subst h1
      exact hacc
  | cons d ds ih =>
      intro fs acc out h hacc
      simp only [processItems] at h
      cases hpi : processItem sd ed se ee http d fs with
      | error e => rw [hpi] at h; cases h
      | ok p =>
          rw [hpi] at h
          obtain ⟨orec, fsx⟩ := p
          cases orec with
          | none => exact ih fsx acc out h hacc
          | some r =>
              refine ih fsx (r :: acc) out h ?_
              intro r2 hr2
              rcases List.mem_cons.mp hr2 with h3 | h3
              · subst h3
                exact processItem_keys sd ed se ee http d fs _ fsx hpi
              · exact hacc r2 h3

theorem process_pages_keys (sd ed : Option PyDateTime) (se ee : Option Int)
    (http : String → HttpResult) :
    ∀ (pages : List (Option Json)) (fs : FS) (acc : List RecDict)
      (out : List RecDict × FS × Nat),
      process_pages sd ed se ee http pages fs acc = .ok out →
      (∀ r ∈ acc, r.map Prod.fst = ["Edicao", "Data", "Paginas", "Tamanho", "PDF_URL"]) →
      ∀ r ∈ out.1, r.map Prod.fst = ["Edicao", "Data", "Paginas", "Tamanho", "PDF_URL"] := by
  intro pages
  induction pages with
  | nil =>
      intro fs acc out h hacc
      simp only [process_pages] at h
      injection h with h1
      subst h1
      intro r hr
      exact hacc r (List.mem_reverse.mp hr)
  | cons pg rest ih =>
      intro fs acc out h hacc
      cases pg with
      | none =>
          simp only [process_pages] at h
          injection h with h1
          subst h1
          intro r hr
          exact hacc r (List.mem_reverse.mp hr)
      | some j =>
          simp only [process_pages] at h
          by_cases ht : pyTruthy j
          · rw [if_neg (by simp [ht])] at h
            cases hc : pyContains j "data" with
            | error e => rw [hc] at h; cases h
            | ok b =>
                rw [hc] at h
                try dsimp only at h
                cases b with
                | false =>
                    simp only [] at h
                    injection h with h1
                    subst h1
                    intro r hr
                    exact hacc r (List.mem_reverse.mp hr)
                | true =>
                    try dsimp only at h
                    cases hds : (match pySub j "data" with
                                 | Except.error e => Except.error e
                                 | Except.ok items => pyIterate items : Except String (List Json)) with
                    | error e => rw [hds] at h; cases h
                    | ok ds =>
                        rw [hds] at h
                        try dsimp only at h
                        cases hpi : processItems sd ed se ee http ds fs acc with
                        | error e => rw [hpi] at h; cases h
                        | ok p =>
                            rw [hpi] at h
                            obtain ⟨acc2, fs2⟩ := p
                            try dsimp only at h
                            have hacc2 : ∀ r ∈ acc2,
                                r.map Prod.fst = ["Edicao", "Data", "Paginas", "Tamanho", "PDF_URL"] :=
                              processItems_keys sd ed se ee http ds fs acc (acc2, fs2) hpi hacc
                            cases hln : pyLinksNext j with
                            | error e => rw [hln] at h; cases h
                            | ok nb =>
                                rw [hln] at h
                                try dsimp only at h
                                cases nb with
                                | false =>
                                    injection h with h1
                                    subst h1
                                    intro r hr
                                    exact hacc2 r (List.mem_reverse.mp hr)
                                | true =>
                                    cases hrec : process_pages sd ed se ee http rest fs2 acc2 with
                                    | error e => rw [hrec] at h; cases h
                                    | ok q =>
                                        rw [hrec] at h
                                        try dsimp only at h
                                        obtain ⟨recs, fs3, n⟩ := q
                                        injection h with h1
                                        subst h1
                                        intro r hr
                                        exact ih fs2 acc2 (recs, fs3, n) hrec hacc2 r hr
          · rw [if_pos (by simp [ht])] at h
            injection h with h1
            subst h1
            intro r hr
            exact hacc r (List.mem_reverse.mp hr)

/-- C8 counterexample: in a run whose single download succeeds (the folder
state afterwards holds the written file), the collected record consists of
exactly the keys Edicao, Data, Paginas, Tamanho, PDF_URL — no local file
path field exists to be set, so "set iff the download succeeded" fails at
this run. -/
theorem C8_counterexample :
    process_diarios_by_filter none none none none
        (fun _ => HttpResult.resp 200 [9, 9]) [some samplePage] [] =
      Except.ok ([sampleRec], [("Diarios_PDFs/Diario_7_x.pdf", [9, 9])], 1) ∧
    sampleRec.map Prod.fst = ["Edicao", "Data", "Paginas", "Tamanho", "PDF_URL"] :=
  ⟨rfl, rfl⟩

/-- C8 (amended): every record in the final collected sequence carries
exactly the keys Edicao, Data, Paginas, Tamanho, PDF_URL; no record carries
a local file path field, whether or not a download for it succeeded — the
pipeline discards `download_pdf`'s returned path. -/
theorem C8_amended_no_local_path (sd ed : Option PyDateTime) (se ee : Option Int)
    (http : String → HttpResult) (pages : List (Option Json)) (fs : FS)
    (out : List RecDict × FS × Nat)
    (h : process_diarios_by_filter sd ed se ee http pages fs = .ok out) :
    ∀ r ∈ out.1,
      r.map Prod.fst = ["Edicao", "Data", "Paginas", "Tamanho", "PDF_URL"] :=
  process_pages_keys sd ed se ee http pages fs [] out h
    (by intro r hr; cases hr)

/-- Witness for C8 (amended) at the concrete successful-download run. -/
theorem C8_amended_no_local_path_witness :
    sampleRec.map Prod.fst = ["Edicao", "Data", "Paginas", "Tamanho", "PDF_URL"] :=
  C8_amended_no_local_path none none none none
    (fun _ => HttpResult.resp 200 [9, 9]) [some samplePage] []
    ([sampleRec], [("Diarios_PDFs/Diario_7_x.pdf", [9, 9])], 1) rfl
    sampleRec (by simp)

theorem processItem_http_free_err (sd ed : Option PyDateTime) (se ee : Option Int)
    (http http2 : String → HttpResult) (d : Json) (fs fs2 : FS) (e' : String)
    (h : processItem sd ed se ee http d fs = .error e') :
    processItem sd ed se ee http2 d fs2 = .error e' := by
  simp only [processItem] at h ⊢
  repeat' split at h
  all_goals simp_all

theorem processItem_keep (http : String → HttpResult) (d : Json) (fs : FS)
    (edc dp pg tm : Json) (pu : Option String)
    (g1 : pyGetD d "edicao" (Json.str "") = .ok edc)
    (g2 : pyGetD d "data" (Json.str "") = .ok dp)
    (g3 : computePdfUrl d = .ok pu)
    (g4 : (match pyGetD d "meta" (Json.obj []) with
           | .error e => .error e
           | .ok m => pyGetD m "pages" (Json.str "") : Except String Json) = .ok pg)
    (g5 : (match pyGetD d "meta" (Json.obj []) with
           | .error e => .error e
           | .ok m => pyGetD m "size" (Json.str "") : Except String Json) = .ok tm) :
    processItem none none none none http d fs =
      .ok (some [("Edicao", edc), ("Data", dp), ("Paginas", pg), ("Tamanho", tm),
                 ("PDF_URL", optStrJson pu)],
           if optStrTruthy pu then
             (download_pdf http fs pu PDF_FOLDER
               [("Edicao", edc), ("Data", dp), ("Paginas", pg), ("Tamanho", tm),
                ("PDF_URL", optStrJson pu)]).2.1
           else fs) := by
  simp only [processItem, g1, g2, g3, g4, g5]
  by_cases hp : optStrTruthy pu = true <;> simp [hp]

/-- C1 counterexample: a response body that holds a "data" array but lacks
the "links" key is malformed, and the claim says malformed bodies end
pagination with the collected records returned; instead `data["links"]`
raises an uncaught `KeyError` and the run aborts. -/
theorem C1_counterexample :
    process_diarios_by_filter none none none none
      (fun _ => HttpResult.resp 200 [])
      [some (Json.obj [("data", Json.arr [])])] [] = Except.error "KeyError" := rfl

/-- C1 (amended): the pipeline walks pages sequentially from page 1 (the
returned counter equals the number of `fetch_diarios` calls); a failed
fetch, a falsy body, or a body without the "data" key ends pagination with
the records collected so far; a fully processed page requests page n+1 iff
its `links.next` cursor is truthy; the active date filter skips each
rejected item.  (A body that has "data" but lacks the "links"/"next"
structure raises instead of ending pagination — see the counterexample.) -/
theorem C1_pagination_amended (sd ed : Option PyDateTime) (se ee : Option Int)
    (http : String → HttpResult) (rest : List (Option Json)) (fs fs2 : FS)
    (acc acc2 : List RecDict) (j items : Json) (ds : List Json)
    (d edc dp pg tm : Json) (pu : Option String) (s0 e0 : PyDateTime) :
    (process_diarios_by_filter sd ed se ee http rest fs
      = process_pages sd ed se ee http rest fs []) ∧
    (process_pages sd ed se ee http [] fs acc = .ok (acc.reverse, fs, 1)) ∧
    (process_pages sd ed se ee http (none :: rest) fs acc
      = .ok (acc.reverse, fs, 1)) ∧
    (pyTruthy j = false →
      process_pages sd ed se ee http (some j :: rest) fs acc
        = .ok (acc.reverse, fs, 1)) ∧
    (pyContains j "data" = .ok false →
      process_pages sd ed se ee http (some j :: rest) fs acc
        = .ok (acc.reverse, fs, 1)) ∧
    (pyTruthy j = true → pyContains j "data" = .ok true →
      pySub j "data" = .ok items → pyIterate items = .ok ds →
      processItems sd ed se ee http ds fs acc = .ok (acc2, fs2) →
      (pyLinksNext j = .ok false →
        process_pages sd ed se ee http (some j :: rest) fs acc
          = .ok (acc2.reverse, fs2, 1)) ∧
      (pyLinksNext j = .ok true →
        process_pages sd ed se ee http (some j :: rest) fs acc
          = (match process_pages sd ed se ee http rest fs2 acc2 with
             | .error e2 => .error e2
             | .ok (recs, fs3, n) => .ok (recs, fs3, n + 1)))) ∧
    (pyGetD d "edicao" (Json.str "") = .ok edc →
      pyGetD d "data" (Json.str "") = .ok dp →
      computePdfUrl d = .ok pu →
      (match pyGetD d "meta" (Json.obj []) with
       | .error e => .error e
       | .ok m => pyGetD m "pages" (Json.str "") : Except String Json) = .ok pg →
      (match pyGetD d "meta" (Json.obj []) with
       | .error e => .error e
       | .ok m => pyGetD m "size" (Json.str "") : Except String Json) = .ok tm →
      is_date_in_range dp s0 e0 = false →
      processItem (some s0) (some e0) se ee http d fs = .ok (none, fs)) := by
  refine ⟨rfl, rfl, rfl, ?_, ?_, ?_, ?_⟩
  · intro h
    simp [process_pages, h]
  · intro h
    by_cases ht : pyTruthy j <;> simp [process_pages, ht, h]
  · intro h1 h2 h3 h4 h5
    constructor <;> intro h6 <;> simp [process_pages, h1, h2, h3, h4, h5, h6]
  · intro g1 g2 g3 g4 g5 hrange
    simp [processItem, g1, g2, g3, g4, g5, hrange]

/-- Witness for C1 (amended) at concrete runs: a page with a truthy cursor
makes the loop fetch a second page (two `fetch_diarios` calls); a page with
a null cursor stops after one. -/
theorem C1_pagination_amended_witness :
    process_diarios_by_filter none none none none
      (fun _ => HttpResult.resp 200 []) [some samplePageNext, none] []
      = Except.ok ([], [], 2) ∧
    process_diarios_by_filter none none none none
      (fun _ => HttpResult.resp 200 []) [some samplePage] []
      = Except.ok ([sampleRec], [("Diarios_PDFs/Diario_7_x.pdf", [])], 1) := by
  constructor
  · have h := ((C1_pagination_amended none none none none
        (fun _ => HttpResult.resp 200 []) [none] [] [] [] []
        samplePageNext (Json.arr []) [] Json.null Json.null Json.null Json.null
        Json.null none ⟨1, 1, 1, 0⟩ ⟨1, 1, 1, 0⟩).2.2.2.2.2.1
        rfl rfl rfl rfl rfl).2 rfl
    exact h.trans (by rfl)
  · have h := ((C1_pagination_amended none none none none
        (fun _ => HttpResult.resp 200 []) [] []
        [("Diarios_PDFs/Diario_7_x.pdf", [])] [] [sampleRec]
        samplePage (Json.arr [sampleDiario]) [sampleDiario] Json.null Json.null
        Json.null Json.null Json.null none ⟨1, 1, 1, 0⟩ ⟨1, 1, 1, 0⟩).2.2.2.2.2.1
        rfl rfl rfl rfl rfl).1 rfl
    exact h

/-- C4 counterexample: the PDF request for the only work item fails with
status 500, yet the item is NOT dropped from the output — its record (which
the loop appends before attempting the download) is returned, with no file
written. -/
theorem C4_counterexample :
    process_diarios_by_filter none none none none
      (fun _ => HttpResult.resp 500 []) [some samplePage] []
      = Except.ok ([sampleRec], [], 1) := rfl

/-- C4 (amended): per-item download failures are caught and never abort the
run, but the failed item is not dropped: the record collected for an item —
and whether `processItem` errors at all — is independent of the HTTP layer
and folder state, the download outcome being discarded; a non-200 or raised
PDF request returns `None` with the folder unchanged; and a failed PAGE
fetch ends the run gracefully with the records collected so far instead of
continuing with the remaining pages. -/
theorem C4_failures_amended (sd ed : Option PyDateTime) (se ee : Option Int)
    (http http2 : String → HttpResult) (rest : List (Option Json))
    (fs fs2 : FS) (acc : List RecDict) (d edc dp pg tm : Json)
    (pu : Option String) (u folder : String) (info : RecDict) (st : Nat)
    (body : List Nat) (e e' : String) :
    (process_pages sd ed se ee http (none :: rest) fs acc
      = .ok (acc.reverse, fs, 1)) ∧
    (http u = .resp st body → st ≠ 200 → u ≠ "" →
      download_pdf http fs (some u) folder info = (none, fs, [u])) ∧
    (http u = .exn e → u ≠ "" →
      download_pdf http fs (some u) folder info = (none, fs, [u])) ∧
    (processItem sd ed se ee http d fs = .error e' →
      processItem sd ed se ee http2 d fs2 = .error e') ∧
    (pyGetD d "edicao" (Json.str "") = .ok edc →
      pyGetD d "data" (Json.str "") = .ok dp →
      computePdfUrl d = .ok pu →
      (match pyGetD d "meta" (Json.obj []) with
       | .error e0 => .error e0
       | .ok m => pyGetD m "pages" (Json.str "") : Except String Json) = .ok pg →
      (match pyGetD d "meta" (Json.obj []) with
       | .error e0 => .error e0
       | .ok m => pyGetD m "size" (Json.str "") : Except String Json) = .ok tm →
      processItem none none none none http d fs =
        .ok (some [("Edicao", edc), ("Data", dp), ("Paginas", pg),
                   ("Tamanho", tm), ("PDF_URL", optStrJson pu)],
             if optStrTruthy pu then
               (download_pdf http fs pu PDF_FOLDER
                 [("Edicao", edc), ("Data", dp), ("Paginas", pg),
                  ("Tamanho", tm), ("PDF_URL", optStrJson pu)]).2.1
             else fs)) := by
  refine ⟨rfl, ?_, ?_, ?_, ?_⟩
  · intro hr hst hu
    simp [download_pdf, hu, hr, hst]
  · intro hr hu
    simp [download_pdf, hu, hr]
  · exact processItem_http_free_err sd ed se ee http http2 d fs fs2 e'
  · exact processItem_keep http d fs edc dp pg tm pu

/-- Witness for C4 (amended) at concrete inputs: a 500 response makes
`download_pdf` return `None` without touching the folder, and the sample
item is still collected with its record. -/
theorem C4_failures_amended_witness :
    download_pdf (fun _ => HttpResult.resp 500 []) [] (some "u") PDF_FOLDER
      sampleRec = (none, [], ["u"]) ∧
    processItem none none none none (fun _ => HttpResult.resp 500 [])
      sampleDiario [] = .ok (some sampleRec, []) := by
  constructor
  · exact (C4_failures_amended none none none none
      (fun _ => HttpResult.resp 500 []) (fun _ => HttpResult.resp 500 [])
      [] [] [] [] Json.null Json.null Json.null Json.null Json.null none
      "u" PDF_FOLDER sampleRec 500 [] "" "").2.1 rfl (by decide) (by decide)
  · have h := (C4_failures_amended none none none none
      (fun _ => HttpResult.resp 500 []) (fun _ => HttpResult.resp 500 [])
      [] [] [] [] sampleDiario (Json.num 7) (Json.str "x") (Json.str "")
      (Json.str "")
      (some "https://publicacoes.boavista.rr.gov.br/a.pdf")
      "u" PDF_FOLDER sampleRec 500 [] "" "").2.2.2.2
      rfl rfl rfl rfl rfl
    exact h.trans (by rfl)
